import Mathlib

/-!
Shallow embedding of the ProTennisJobs scrape-and-normalize pipeline
(`src/scrape_protennisjobs.py`) and the CSV loader of the serving layer
(`src/server.py`), together with theorems settling the specification claims.

Conventions of the embedding:
* Python strings are Lean `String`s manipulated through their `List Char`
  data; `len`, slicing, `strip`, `lower`, `splitlines`, whitespace `split`
  are defined below to mirror the Python string methods.
* Python dicts used as caches are association lists observed only through
  `List.lookup`; assignment is a shadowing prepend.
* Network calls (the scraped site, the geocoder, the completion service)
  are oracles passed as function parameters: the oracle gives the response
  the external service would return to a given request.
* BeautifulSoup selector results are fields of a `DetailPage` structure:
  the HTML parse itself is external-library behaviour, the pipeline only
  consumes the selected values.
* `requests` exceptions are `Except` errors carrying the HTTP status code.
-/

namespace PTJ

/-- Python falsiness of a whitespace character, `Char.isWhitespace` covers
the ASCII whitespace appearing in the scraped data. -/
def isWs (c : Char) : Bool := c.isWhitespace

/-- `len(s)` on a Python string: number of characters. -/
def pyLen (s : String) : Nat := s.data.length

/-- `s[:n]`: first `n` characters. -/
def strTake (s : String) (n : Nat) : String := ⟨s.data.take n⟩

/-- `s.strip()`: remove leading and trailing whitespace. -/
def pyStrip (s : String) : String :=
  ⟨((s.data.dropWhile isWs).reverse.dropWhile isWs).reverse⟩

/-- `s.rstrip()`: remove trailing whitespace. -/
def pyRstrip (s : String) : String :=
  ⟨(s.data.reverse.dropWhile isWs).reverse⟩

/-- `s.lower()` (inputs are ASCII). -/
def pyLower (s : String) : String := ⟨s.data.map Char.toLower⟩

/-- Helper for `s.split()`: accumulate the current word (reversed). -/
def wordsAux : List Char → List Char → List (List Char)
  | [], cur => if cur = [] then [] else [cur.reverse]
  | c :: rest, cur =>
    if isWs c then
      if cur = [] then wordsAux rest [] else cur.reverse :: wordsAux rest []
    else wordsAux rest (c :: cur)

/-- `s.split()`: split on whitespace runs, dropping empty words. -/
def pyWords (s : String) : List String := (wordsAux s.data []).map (⟨·⟩)

/-- `sep.join(parts)`. -/
def pyJoin (sep : String) : List String → String
  | [] => ""
  | [s] => s
  | s :: t :: rest => s ++ sep ++ pyJoin sep (t :: rest)

/-- Helper for `s.splitlines()`, accumulating the current line reversed.
Handles the line endings occurring in the pipeline's data: `\n`, `\r\n`,
`\r` (Python also splits on rarer control characters, never present here). -/
def splitlinesAux : List Char → List Char → List (List Char)
  | [], cur => if cur = [] then [] else [cur.reverse]
  | '\r' :: '\n' :: rest, cur => cur.reverse :: splitlinesAux rest []
  | '\r' :: rest, cur => cur.reverse :: splitlinesAux rest []
  | '\n' :: rest, cur => cur.reverse :: splitlinesAux rest []
  | c :: rest, cur => splitlinesAux rest (c :: cur)

/-- `s.splitlines()`. -/
def pySplitlines (s : String) : List String := (splitlinesAux s.data []).map (⟨·⟩)

/-- `normalize_whitespace`: `re.sub(r"\s+", " ", text).strip()`, i.e. the
whitespace-separated words joined by single spaces. -/
def normalize_whitespace (s : String) : String := pyJoin " " (pyWords s)

/-- Truthiness of an `Optional[str]`: `None` and `""` are falsy. -/
def pyTruthy : Option String → Bool
  | none => false
  | some s => s ≠ ""

/-- `a or b` on two `Optional[str]` values. -/
def pyOr (a b : Option String) : Option String := if pyTruthy a then a else b

/-- `a or d` where the fallback is a plain string. -/
def pyOrStr (a : Option String) (d : String) : String :=
  match a with
  | some s => if s = "" then d else s
  | none => d

/-- `f"{x}"` on an `Optional[str]`: `None` renders as `"None"`. -/
def pyFStr : Option String → String
  | none => "None"
  | some s => s

/-- First index (from `i`) at which `sub` starts inside `cs`; `s.find(sub)`. -/
def findSubAux (sub : List Char) : List Char → Nat → Option Nat
  | cs, i =>
    if sub.isPrefixOf cs then some i
    else
      match cs with
      | [] => none
      | _ :: t => findSubAux sub t (i + 1)

/-- `s.find(sub)` as an optional index. -/
def findSub (cs sub : List Char) : Option Nat := findSubAux sub cs 0

/-- Helper for substring containment: does `sub` start at some position of
the list? -/
def containsAux (sub : List Char) : List Char → Bool
  | [] => sub.isPrefixOf []
  | c :: t => sub.isPrefixOf (c :: t) || containsAux sub t

/-- Substring containment, `sub in s`. -/
def strContains (hay sub : String) : Bool := containsAux sub.data hay.data

/-- `s.endswith(suffix)`. -/
def pyEndsWith (s suffix : String) : Bool :=
  suffix.data.reverse.isPrefixOf s.data.reverse

end PTJ

namespace PTJ

/-! ## Location parsing (`parse_location`, scraper lines 220-233) -/

/-- The `location{city,state}` dict of a record. -/
structure Loc where
  city : Option String
  state : Option String
deriving DecidableEq, Repr

/-- Character class `[A-Za-z .'-]` of the city group in `parse_location`. -/
def cityChar (c : Char) : Bool :=
  c.isAlpha || c = ' ' || c = '.' || c = '\'' || c = '-'

/-- One attempt of `re.search(r"([A-Za-z .'-]+),\s*([A-Za-z]{2,})", ...)` at
the current start position: greedy city-class run, a comma, optional
whitespace, then at least two letters. -/
def locMatchAt (cs : List Char) : Option (List Char × List Char) :=
  let run := cs.takeWhile cityChar
  if run = [] then none
  else
    match cs.dropWhile cityChar with
    | ',' :: rest =>
      let letters := (rest.dropWhile isWs).takeWhile Char.isAlpha
      if 2 ≤ letters.length then some (run, letters) else none
    | _ => none

/-- `re.search` for the city/state pattern: leftmost start position wins. -/
def locSearch : List Char → Option (List Char × List Char)
  | [] => none
  | c :: rest =>
    match locMatchAt (c :: rest) with
    | some r => some r
    | none => locSearch rest

/-- `parse_location`: match `"City, ST"` / `"City, State"`, else treat the
whole normalized string as the city. -/
def parse_location (raw : Option String) : Loc :=
  match raw with
  | none => ⟨none, none⟩
  | some r =>
    if r = "" then ⟨none, none⟩
    else
      let r := normalize_whitespace r
      match locSearch r.data with
      | some (g1, g2) => ⟨some (pyStrip ⟨g1⟩), some (pyStrip ⟨g2⟩)⟩
      | none => ⟨some r, none⟩

/-! ## Section classifier (scraper lines 391-489) -/

/-- The section keys of `SECTION_KEYWORDS`. -/
inductive SectionKey
  | key_responsibilities
  | required_qualifications
  | preferred_certifications
  | compensation_benefits
  | work_schedule
  | physical_requirements
  | how_to_apply
  | position_overview
deriving DecidableEq, Repr

/-- `SECTION_KEYWORDS`, in source (dict insertion) order. -/
def SECTION_KEYWORDS : List (SectionKey × List String) :=
  [ (.key_responsibilities,
      ["responsibilities", "duties", "what you will do", "role includes"]),
    (.required_qualifications,
      ["requirements", "qualifications", "required", "experience"]),
    (.preferred_certifications,
      ["preferred", "certification", "certifications", "uspta", "ptr"]),
    (.compensation_benefits,
      ["compensation", "benefits", "salary", "pay"]),
    (.work_schedule,
      ["schedule", "hours", "availability"]),
    (.physical_requirements,
      ["physical requirement", "physical requirements", "physical"]),
    (.how_to_apply,
      ["how to apply", "apply", "contact", "email", "phone"]),
    (.position_overview,
      ["overview", "description", "position", "summary"]) ]

/-- `match_section_key`: first key one of whose keywords occurs in the
lower-cased heading text. -/
def match_section_key (heading_text : String) : Option SectionKey :=
  let text := pyLower heading_text
  SECTION_KEYWORDS.findSome? fun (key, keywords) =>
    if keywords.any (fun keyword => strContains text keyword) then some key else none

/-- The `sections` dict: association list observed through `List.lookup`. -/
abbrev Sections := List (SectionKey × String)

/-- `sections[key] = value` / `cache[key] = value`: dict assignment modeled
as a shadowing prepend (all observations go through `List.lookup`). -/
def dictSet {κ α : Type} (m : List (κ × α)) (k : κ) (v : α) : List (κ × α) :=
  (k, v) :: m

/-- `sections.setdefault(key, value)`. -/
def dictSetdefault {κ α : Type} [DecidableEq κ] (m : List (κ × α)) (k : κ) (v : α) :
    List (κ × α) :=
  match List.lookup k m with
  | some _ => m
  | none => dictSet m k v

/-- `flush()` of `extract_sections_from_description`: record the accumulated
lines under the open key when both exist. -/
def sectionsFlush (sections : Sections) (current_key : Option SectionKey)
    (current_parts : List String) : Sections :=
  match current_key with
  | some key =>
    if current_parts = [] then sections
    else dictSet sections key (normalize_whitespace (pyJoin " " current_parts))
  | none => sections

/-- Main line scan of `extract_sections_from_description`. -/
def sectionsScan : List String → Sections → Option SectionKey → List String → Sections
  | [], sections, current_key, current_parts =>
    sectionsFlush sections current_key current_parts
  | line :: rest, sections, current_key, current_parts =>
    if line = "" then sectionsScan rest sections current_key current_parts
    else
      match match_section_key line with
      | some key =>
        if pyEndsWith line ":" ∨ (pyWords line).length ≤ 6 then
          sectionsScan rest (sectionsFlush sections current_key current_parts) (some key) []
        else
          match current_key with
          | some _ => sectionsScan rest sections current_key (current_parts ++ [line])
          | none => sectionsScan rest sections current_key current_parts
      | none =>
        match current_key with
        | some _ => sectionsScan rest sections current_key (current_parts ++ [line])
        | none => sectionsScan rest sections current_key current_parts

/-- Weaker fallback pass: the first line containing each keyword becomes that
section's content (`setdefault`, every matching key per line). -/
def sectionsFallback (lines : List String) : Sections :=
  lines.foldl
    (fun sections line =>
      SECTION_KEYWORDS.foldl
        (fun sections (kv : SectionKey × List String) =>
          if kv.2.any (fun keyword => strContains (pyLower line) keyword) then
            dictSetdefault sections kv.1 line
          else sections)
        sections)
    []

/-- `extract_sections_from_description`: keyword-matched heading scan with the
no-headings fallback. -/
def extract_sections_from_description (description : String) : Sections :=
  let lines := (pySplitlines description).map pyStrip
  let sections := sectionsScan lines [] none []
  if sections = [] then sectionsFallback lines else sections

/-! ## Record schema (`JobListing` dataclass, scraper lines 71-93) -/

/-- The flat record produced per listing. `distance_to_harrogate_tn_miles`
is a Python float; it is modeled as a rational since no claim depends on
floating-point rounding. -/
structure JobListing where
  job_title : String
  location : Loc
  posted_date : Option String
  job_summary : Option String
  position_overview : Option String
  suitability_score : Option Int
  key_responsibilities : Option String
  required_qualifications : Option String
  preferred_certifications : Option String
  compensation_benefits : Option String
  work_schedule : Option String
  physical_requirements : Option String
  how_to_apply : Option String
  contact_emails : Option String
  contact_name : Option String
  contact_city : Option String
  contact_address : Option String
  contact_url : Option String
  distance_to_harrogate_tn_miles : Option Rat
  source_url : String
deriving DecidableEq, Repr

/-! ## Geocoding cache layer (scraper lines 630-694) -/

/-- A geocoded coordinate, the `{"lat": ..., "lon": ...}` cache value.
Coordinates are opaque to every claim; they are carried as rationals. -/
structure GeoCoords where
  lat : Rat
  lon : Rat
deriving DecidableEq, Repr

/-- The geocode cache: normalized `"city, state"` key to coordinate or
explicit null. -/
abbrev GeoCache := List (String × Option GeoCoords)

/-- What the geocoding service replies to a query: a request-level failure
(`requests.RequestException`), an empty result array, or a first hit. -/
inductive GeocodeReply
  | failure
  | empty
  | found (lat lon : Rat)

/-- `location_cache_key`: lowercase, stripped, comma-joined key; `None` when
both parts are missing or whitespace-only. -/
def location_cache_key (city state : Option String) : Option String :=
  let parts :=
    [city, state].filterMap fun part =>
      match part with
      | some p => if p ≠ "" ∧ pyStrip p ≠ "" then some (pyLower (pyStrip p)) else none
      | none => none
  if parts = [] then none else some (pyJoin ", " parts)

/-- The free-text geocoding query `f"{city}, {state}, USA"` /
`f"{city}, USA"`. -/
def geoQuery (city state : Option String) : String :=
  if pyTruthy state then pyFStr city ++ ", " ++ pyFStr state ++ ", USA"
  else pyFStr city ++ ", USA"

/-- Result of one `geocode_city_state` call: the returned coordinate, the
cache afterwards, and how many geocoding requests were issued. -/
structure GeoResult where
  coords : Option GeoCoords
  cache : GeoCache
  requests : Nat
deriving Repr

/-- `geocode_city_state`: cache hits (including cached nulls) answer without
a request; on a miss the service is queried, an empty reply is cached as an
explicit null, a request exception returns `None` without touching the
cache. -/
def geocode_city_state (net : String → GeocodeReply) (city state : Option String)
    (cache : GeoCache) : GeoResult :=
  match location_cache_key city state with
  | none => ⟨none, cache, 0⟩
  | some key =>
    match List.lookup key cache with
    | some (some cached) => ⟨some cached, cache, 0⟩
    | some none => ⟨none, cache, 0⟩
    | none =>
      match net (geoQuery city state) with
      | .failure => ⟨none, cache, 1⟩
      | .empty => ⟨none, dictSet cache key none, 1⟩
      | .found lat lon => ⟨some ⟨lat, lon⟩, dictSet cache key (some ⟨lat, lon⟩), 1⟩

/-! ## Fit scoring (scraper lines 442-445, 492-627) -/

/-- `WINTER_FIT_CRITERIA`. -/
def WINTER_FIT_CRITERIA : String :=
  "I want a club willing to take me in for the winter season, not only full time or for " ++
  "the summer season. I want to work from August 2026 to April/May 2027."

/-- `OPENAI_MAX_INPUT_CHARS` at its default of 1500 (environment overrides
are out of scope). -/
def OPENAI_MAX_INPUT_CHARS : Nat := 1500

/-- The prompt parts assembled by `build_fit_prompt` before truncation. -/
def fit_prompt_parts (job : JobListing) : List String :=
  let parts := ["Criteria: " ++ WINTER_FIT_CRITERIA, "Job Title: " ++ job.job_title]
  let loc_parts :=
    [job.location.city, job.location.state].filterMap fun part =>
      match part with
      | some p => if p ≠ "" then some p else none
      | none => none
  let parts := parts ++
    (if loc_parts ≠ [] then ["Location: " ++ pyJoin ", " loc_parts] else [])
  let parts := parts ++
    (if pyTruthy job.posted_date then ["Posted Date: " ++ job.posted_date.getD ""] else [])
  let parts := parts ++
    (if pyTruthy job.job_summary then ["Summary: " ++ job.job_summary.getD ""] else [])
  let parts := parts ++
    (if pyTruthy job.position_overview then ["Overview: " ++ job.position_overview.getD ""] else [])
  let parts := parts ++
    (if pyTruthy job.key_responsibilities then
      ["Responsibilities: " ++ job.key_responsibilities.getD ""] else [])
  let parts := parts ++
    (if pyTruthy job.work_schedule then ["Schedule: " ++ job.work_schedule.getD ""] else [])
  let parts := parts ++
    (if pyTruthy job.required_qualifications then
      ["Requirements: " ++ job.required_qualifications.getD ""] else [])
  let parts := parts ++
    (if pyTruthy job.how_to_apply then ["How to apply: " ++ job.how_to_apply.getD ""] else [])
  parts

/-- `build_fit_prompt`: newline-join the parts, truncating to the character
budget with a `"..."` marker when exceeded. -/
def build_fit_prompt (job : JobListing) : String :=
  let prompt := pyJoin "\n" (fit_prompt_parts job)
  if pyLen prompt > OPENAI_MAX_INPUT_CHARS then
    pyRstrip (strTake prompt OPENAI_MAX_INPUT_CHARS) ++ "..."
  else prompt

/-- A JSON value as far as `parse_score_from_text` observes it: the `score`
entry is usable exactly when it is numeric. Non-integral floats are
abstracted into the oracle's choice of integer since no claim depends on
`round`. -/
inductive JVal
  | jnum (n : Int)
  | jother
deriving DecidableEq

/-- A parsed JSON object: field list as produced by `json.loads` (later
duplicates win, as in a Python dict built from JSON). -/
abbrev JsonObj := List (String × JVal)

/-- `data.get(key)` on an object built by `json.loads`. -/
def jsonGet (obj : JsonObj) (key : String) : Option JVal :=
  ((obj.filter (fun kv => kv.1 = key)).getLast?).map (·.2)

/-- The `re.search(r"\{.*\}", text, re.S)` match: from the first `\x7b` to
the last `\x7d`, when the latter comes after the former. -/
def braceSpan (text : String) : Option String :=
  let cs := text.data
  match cs.findIdx? (· = '{'), (cs.length - 1 - ·) <$> cs.reverse.findIdx? (· = '}') with
  | some i, some j => if i < j then some ⟨(cs.drop i).take (j - i + 1)⟩ else none
  | _, _ => none

/-- `parse_score_from_text`: extract the braced span, parse it with the
`json.loads` oracle, and clamp a numeric `score` into `[0, 10]`. -/
def parse_score_from_text (jloads : String → Option JsonObj) (text : String) : Option Int :=
  match braceSpan text with
  | none => none
  | some sub =>
    match jloads sub with
    | none => none
    | some obj =>
      match jsonGet obj "score" with
      | some (.jnum n) => some (max 0 (min 10 n))
      | _ => none

/-- What the completion service replies to a prompt: a request-level failure
(`requests.RequestException`, including `raise_for_status` and a malformed
response body) or the extracted output text (`extract_openai_text ... or ""`). -/
inductive ScoreReply
  | failure
  | reply (text : String)

/-- `fetch_openai_score`: request the completion service and parse the score
out of its text; request-level failures escape as exceptions. -/
def fetch_openai_score (jloads : String → Option JsonObj) (rep : ScoreReply) :
    Except Unit (Option Int) :=
  match rep with
  | .failure => .error ()
  | .reply text => .ok (parse_score_from_text jloads text)

/-- The fit-score cache: listing URL to score or explicit null. -/
abbrev ScoreCache := List (String × Option Int)

/-- The per-job body of the `score_jobs_with_ai` loop: cache hit reuses the
cached value, a miss queries the service, and both the request-exception and
the unparsable-reply outcomes are recorded as a cached null. -/
def score_one (jloads : String → Option JsonObj) (net : String → ScoreReply)
    (cache : ScoreCache) (job : JobListing) : JobListing × ScoreCache :=
  match List.lookup job.source_url cache with
  | some cached => ({ job with suitability_score := cached }, cache)
  | none =>
    let score :=
      match fetch_openai_score jloads (net (build_fit_prompt job)) with
      | .error _ => none
      | .ok s => s
    ({ job with suitability_score := score }, dictSet cache job.source_url score)

/-- The `score_jobs_with_ai` loop over the job list, threading the cache. -/
def score_jobs_core (jloads : String → Option JsonObj) (net : String → ScoreReply) :
    List JobListing → ScoreCache → List JobListing × ScoreCache
  | [], cache => ([], cache)
  | job :: rest, cache =>
    let (job', cache') := score_one jloads net cache job
    let (rest', cache'') := score_jobs_core jloads net rest cache'
    (job' :: rest', cache'')

/-- `score_jobs_with_ai`: no-op without an API key, otherwise the scoring
loop (cache file load/save abstracted as the cache argument and result). -/
def score_jobs_with_ai (api_key : String) (jloads : String → Option JsonObj)
    (net : String → ScoreReply) (jobs : List JobListing) (cache : ScoreCache) :
    List JobListing × ScoreCache :=
  if pyStrip api_key = "" then (jobs, cache)
  else score_jobs_core jloads net jobs cache

/-! ## Detail-page fetching and record construction (scraper lines 198-206,
260-297, 326-389, 729-806) -/

/-- `CATEGORY_URL`. -/
def CATEGORY_URL : String := "https://protennisjobs.com/category/tennis-professional/"

/-- The contact block parsed by `extract_contact_details` (a pure
BeautifulSoup walk over the `Contact Details` alert, abstracted as the
page's selected data). -/
structure ContactDetails where
  contact_name : Option String
  contact_email : Option String
  contact_city : Option String
  contact_address : Option String
  contact_url : Option String
deriving DecidableEq, Repr

/-- A parsed detail page, holding what the BeautifulSoup selectors return:
the JSON-LD script text, the contact block, and the email scan
`extract_contact_emails(soup, description)` as a function of the
description it is given. -/
structure DetailPage where
  jsonLd : Option String
  contactDetails : ContactDetails
  soupEmails : String → Option String

/-- An HTTP response: status code plus the parsed page. -/
structure Response where
  status : Nat
  page : DetailPage

/-- `response.raise_for_status()`: 4xx/5xx statuses raise `HTTPError`
carrying the code. -/
def raise_for_status (r : Response) : Except Nat DetailPage :=
  if 400 ≤ r.status ∧ r.status < 600 then .error r.status else .ok r.page

/-- `fetch_html`: one GET with the given referer; a 403 is retried once with
the category-URL referer unless that referer was already sent. The oracle
`net` maps the referer header of a request to the site's response. Returns
the final outcome and the referers of the requests issued, in order. -/
def fetch_html (net : Option String → Response) (referer : Option String) :
    Except Nat DetailPage × List (Option String) :=
  let r := net referer
  if r.status = 403 ∧ referer ≠ some CATEGORY_URL then
    (raise_for_status (net (some CATEGORY_URL)), [referer, some CATEGORY_URL])
  else
    (raise_for_status r, [referer])

/-- Character scan of a JSON-LD string value: stop at an unescaped quote. -/
def scanJsonVal : Char → List Char → List Char
  | _, [] => []
  | prev, c :: rest =>
    if c = '"' ∧ prev ≠ '\\' then [] else c :: scanJsonVal c rest

/-- `extract_json_ld_string`: locate `"key"`, the following colon and quote,
and take the value up to the next unescaped quote; empty values become
`None`, non-empty ones pass through `html.unescape` (stdlib, supplied as an
oracle). -/
def extract_json_ld_string (unescape : String → String) (text key : String) :
    Option String :=
  let cs := text.data
  match findSub cs ("\"" ++ key ++ "\"").data with
  | none => none
  | some idx =>
    match (· + idx) <$> (cs.drop idx).findIdx? (· = ':') with
    | none => none
    | some colon =>
      match (· + (colon + 1)) <$> (cs.drop (colon + 1)).findIdx? (· = '"') with
      | none => none
      | some quote =>
        let value : String := ⟨scanJsonVal '"' (cs.drop (quote + 1))⟩
        if value = "" then none else some (unescape value)

/-- `extract_json_ld_location`: structured locality/region first, street
address fallback through `parse_location`. -/
def extract_json_ld_location (unescape : String → String) (text : String) : Loc :=
  let city := extract_json_ld_string unescape text "addressLocality"
  let state := extract_json_ld_string unescape text "addressRegion"
  if ¬pyTruthy city ∧ ¬pyTruthy state then
    parse_location (extract_json_ld_string unescape text "streetAddress")
  else ⟨city, state⟩

/-- Character scan equivalent to the sequential
`s.replace("\r\n", "\n").replace("\r", "\n")`. -/
def normalizeNewlinesAux : List Char → List Char
  | [] => []
  | '\r' :: '\n' :: rest => '\n' :: normalizeNewlinesAux rest
  | '\r' :: rest => '\n' :: normalizeNewlinesAux rest
  | c :: rest => c :: normalizeNewlinesAux rest

/-- `s.replace("\r\n", "\n").replace("\r", "\n")` as applied to the raw
description. -/
def normalizeNewlines (s : String) : String := ⟨normalizeNewlinesAux s.data⟩

/-- The degraded record emitted for a persistent 403 on a detail page:
listing-page data only, every detail-only field null. -/
def degradedRecord (job_url : String)
    (summary listing_title listing_location listing_date : Option String) : JobListing :=
  { job_title := pyOrStr listing_title "Unknown"
    location := parse_location listing_location
    posted_date := listing_date
    job_summary := summary
    position_overview := none
    suitability_score := none
    key_responsibilities := none
    required_qualifications := none
    preferred_certifications := none
    compensation_benefits := none
    work_schedule := none
    physical_requirements := none
    how_to_apply := none
    contact_emails := none
    contact_name := none
    contact_city := none
    contact_address := none
    contact_url := none
    distance_to_harrogate_tn_miles := none
    source_url := job_url }

/-- `extract_job_details`: fetch the detail page with the category referer;
a 403 yields the degraded record, any other HTTP error propagates; on
success build the full record from JSON-LD, the section classifier and the
contact block. -/
def extract_job_details (unescape : String → String) (net : Option String → Response)
    (job_url : String)
    (summary listing_title listing_location listing_date : Option String) :
    Except Nat JobListing :=
  match (fetch_html net (some CATEGORY_URL)).1 with
  | .error code =>
    if code = 403 then
      .ok (degradedRecord job_url summary listing_title listing_location listing_date)
    else .error code
  | .ok soup =>
    let json_ld := soup.jsonLd.getD ""
    let description :=
      normalizeNewlines ((extract_json_ld_string unescape json_ld "description").getD "")
    let title := pyOrStr (pyOr (extract_json_ld_string unescape json_ld "title") listing_title)
      "Unknown"
    let posted_date := pyOr (extract_json_ld_string unescape json_ld "datePosted") listing_date
    let location0 := extract_json_ld_location unescape json_ld
    let location :=
      if ¬pyTruthy location0.city ∧ pyTruthy listing_location then
        parse_location listing_location
      else location0
    let sections :=
      if description ≠ "" then extract_sections_from_description description else []
    let po0 := List.lookup SectionKey.position_overview sections
    let position_overview :=
      if ¬pyTruthy po0 ∧ description ≠ "" then
        let paragraphs := (pySplitlines description).filter (fun line => pyStrip line ≠ "")
        if paragraphs.length > 1 then paragraphs[1]? else paragraphs[0]?
      else po0
    let contact_details := soup.contactDetails
    let contact_emails := pyOr contact_details.contact_email (soup.soupEmails description)
    .ok
      { job_title := title
        location := location
        posted_date := posted_date
        job_summary := summary
        position_overview := position_overview
        suitability_score := none
        key_responsibilities := List.lookup SectionKey.key_responsibilities sections
        required_qualifications := List.lookup SectionKey.required_qualifications sections
        preferred_certifications := List.lookup SectionKey.preferred_certifications sections
        compensation_benefits := List.lookup SectionKey.compensation_benefits sections
        work_schedule := List.lookup SectionKey.work_schedule sections
        physical_requirements := List.lookup SectionKey.physical_requirements sections
        how_to_apply := List.lookup SectionKey.how_to_apply sections
        contact_emails := contact_emails
        contact_name := contact_details.contact_name
        contact_city := contact_details.contact_city
        contact_address := contact_details.contact_address
        contact_url := contact_details.contact_url
        distance_to_harrogate_tn_miles := none
        source_url := job_url }

/-! ## Listing crawl (`scrape_all_listings`, scraper lines 809-864) -/

/-- One summary entry extracted from a category listing page. -/
structure ListingEntry where
  url : String
  summary : Option String
  listing_title : Option String
  listing_location : Option String
  listing_date : Option String

/-- Oracle for `extract_listings_from_page`: the fetched and
soup-parsed listing page — its entries and next-page link — or the HTTP
error the page fetch raised. -/
abbrev ListingNet := String → Except Nat (List ListingEntry × Option String)

/-- Oracle for the detail-page site: per detail URL, the response to a
request carrying a given referer header. -/
abbrev DetailNet := String → Option String → Response

/-- The inner `for listing in listings` loop of `scrape_all_listings`:
skip URLs already seen, otherwise build the record (propagating HTTP
errors) and append it. -/
def processListings (unescape : String → String) (dn : DetailNet) :
    List ListingEntry → List String → List JobListing →
    Except Nat (List String × List JobListing)
  | [], seen, acc => .ok (seen, acc)
  | e :: rest, seen, acc =>
    if e.url ∈ seen then processListings unescape dn rest seen acc
    else
      match extract_job_details unescape (dn e.url) e.url e.summary e.listing_title
          e.listing_location e.listing_date with
      | .error code => .error code
      | .ok job => processListings unescape dn rest (e.url :: seen) (acc ++ [job])

/-- The `while next_url` pagination loop. `fuel` bounds the number of pages
visited, modeling the cutoff of an otherwise non-terminating pagination
cycle; the source loops until the next link disappears. -/
def scrapeGo (unescape : String → String) (ln : ListingNet) (dn : DetailNet) :
    Nat → Option String → List String → List JobListing → Except Nat (List JobListing)
  | 0, _, _, acc => .ok acc
  | _ + 1, none, _, acc => .ok acc
  | fuel + 1, some url, seen, acc =>
    match ln url with
    | .error code => .error code
    | .ok (entries, next) =>
      match processListings unescape dn entries seen acc with
      | .error code => .error code
      | .ok (seen', acc') => scrapeGo unescape ln dn fuel next seen' acc'

/-- `scrape_all_listings`: crawl from the category URL with an empty seen
set. -/
def scrape_all_listings (fuel : Nat) (unescape : String → String) (ln : ListingNet)
    (dn : DetailNet) : Except Nat (List JobListing) :=
  scrapeGo unescape ln dn fuel (some CATEGORY_URL) [] []

/-! ## CSV serialization (`write_csv`, scraper lines 867-920) -/

/-- A CSV cell for an optional string: `csv` writes `None` as the empty
string and strings as themselves. -/
def csvCell (o : Option String) : String := o.getD ""

/-- A CSV cell for the optional integer score. -/
def csvCellInt : Option Int → String
  | none => ""
  | some n => toString n

/-- A CSV cell for the optional distance (Python float repr abstracted as
the rational's repr; no claim exercises a non-null distance cell). -/
def csvCellRat : Option Rat → String
  | none => ""
  | some q => toString q

/-- The row `write_csv` emits for one record, keyed by the stable header
names, in `fieldnames` order. -/
def write_csv_row (job : JobListing) : List (String × String) :=
  [ ("job_title", job.job_title),
    ("location_city", csvCell job.location.city),
    ("location_state", csvCell job.location.state),
    ("posted_date", csvCell job.posted_date),
    ("Distance to Harrogate, TN", csvCellRat job.distance_to_harrogate_tn_miles),
    ("job_summary", csvCell job.job_summary),
    ("position_overview", csvCell job.position_overview),
    ("suitability_score", csvCellInt job.suitability_score),
    ("key_responsibilities", csvCell job.key_responsibilities),
    ("required_qualifications", csvCell job.required_qualifications),
    ("preferred_certifications", csvCell job.preferred_certifications),
    ("compensation_benefits", csvCell job.compensation_benefits),
    ("work_schedule", csvCell job.work_schedule),
    ("physical_requirements", csvCell job.physical_requirements),
    ("how_to_apply", csvCell job.how_to_apply),
    ("contact_emails", csvCell job.contact_emails),
    ("contact_name", csvCell job.contact_name),
    ("contact_city", csvCell job.contact_city),
    ("contact_address", csvCell job.contact_address),
    ("contact_url", csvCell job.contact_url),
    ("source_url", job.source_url) ]

/-! ## Serving-layer loader (`server.py` lines 112-188) -/

/-- `row.get(key)` on a `csv.DictReader` row. -/
def rowGet (row : List (String × String)) (key : String) : Option String :=
  List.lookup key row

/-- Split a string just before the first occurrence of `sep`
(`s.split(sep, 1)[0]`; the whole string when `sep` does not occur). -/
def splitFirstBefore (s sep : String) : String :=
  match findSub s.data sep.data with
  | some i => ⟨s.data.take i⟩
  | none => s

/-- `host.split(".")`-style split on a single character. -/
def splitOnCharAux (sep : Char) : List Char → List Char → List (List Char)
  | [], cur => [cur.reverse]
  | c :: rest, cur =>
    if c = sep then cur.reverse :: splitOnCharAux sep rest []
    else splitOnCharAux sep rest (c :: cur)

/-- `s.split(sep)` for a one-character separator. -/
def pySplitChar (s : String) (sep : Char) : List String :=
  (splitOnCharAux sep s.data []).map (⟨·⟩)

/-- Helper for `str.title()`: uppercase a letter after a non-letter,
lowercase a letter after a letter (ASCII data only). -/
def titleAux : Bool → List Char → List Char
  | _, [] => []
  | prevAlpha, c :: rest =>
    (if c.isAlpha then (if prevAlpha then c.toLower else c.toUpper) else c) ::
      titleAux c.isAlpha rest

/-- `s.title()`. -/
def pyTitle (s : String) : String := ⟨titleAux false s.data⟩

/-- `s.replace("-", " ")`. -/
def dashToSpace (s : String) : String :=
  ⟨s.data.map fun c => if c = '-' then ' ' else c⟩

/-- `extract_org_name` of the serving layer: organisation inferred from the
`... is looking for` summary pattern or a club-like contact name. -/
def extract_org_name (job_summary contact_name : Option String) : String :=
  let summary := pyStrip (job_summary.getD "")
  if summary ≠ "" ∧ strContains summary " is looking for" then
    pyStrip (splitFirstBefore summary " is looking for")
  else
    let cn := pyStrip (contact_name.getD "")
    if cn ≠ "" ∧ (["club", "academy", "resort", "center", "centre"].any fun keyword =>
        strContains (pyLower cn) keyword) then cn
    else ""

/-- `infer_contact_name`: explicit contact name, else the summary-derived
organisation, else the contact URL's host (hostname extraction of
`urllib.parse.urlparse` supplied as an oracle), else the empty string. -/
def infer_contact_name (hostname : String → Option String)
    (job_summary contact_name contact_url : Option String) : String :=
  if pyTruthy contact_name then contact_name.getD ""
  else
    let inferred := extract_org_name job_summary (some "")
    if inferred ≠ "" then inferred
    else
      match contact_url with
      | some u =>
        if u ≠ "" then
          let host := (hostname u).getD ""
          if host ≠ "" then
            let host := if "www.".data.isPrefixOf host.data then ⟨host.data.drop 4⟩ else host
            let parts := pySplitChar host '.'
            let base :=
              if 2 ≤ parts.length then parts.getD (parts.length - 2) ""
              else parts.getD 0 ""
            pyTitle (dashToSpace base)
          else ""
        else ""
      | none => ""

/-- The in-memory job dict `load_jobs` builds per CSV row. -/
structure ServedJob where
  job_title : String
  location_city : String
  location_state : String
  posted_date : String
  distance_to_harrogate_tn_miles : Option Rat
  job_summary : String
  position_overview : String
  suitability_score : Option Int
  key_responsibilities : String
  required_qualifications : String
  preferred_certifications : String
  compensation_benefits : String
  work_schedule : String
  physical_requirements : String
  how_to_apply : String
  contact_emails : String
  contact_name : String
  contact_city : String
  contact_address : String
  contact_url : String
  source_url : String
deriving DecidableEq, Repr

/-- One row of `load_jobs`: header-keyed parse with empty-string defaults,
the contact-name display fallback, and tolerant numeric parsing
(`float(...)` supplied as an oracle; a parse failure is `None`). -/
def load_job_row (hostname : String → Option String) (pfloat : String → Option Rat)
    (row : List (String × String)) : ServedJob :=
  { job_title := pyOrStr (rowGet row "job_title") "Tennis Role"
    location_city := pyOrStr (rowGet row "location_city") "Unknown City"
    location_state := pyOrStr (rowGet row "location_state") "Unknown"
    posted_date := pyOrStr (rowGet row "posted_date") ""
    distance_to_harrogate_tn_miles :=
      match rowGet row "Distance to Harrogate, TN" with
      | none => none
      | some d => if d = "" then none else pfloat d
    job_summary := pyOrStr (rowGet row "job_summary") ""
    position_overview := pyOrStr (rowGet row "position_overview") ""
    suitability_score :=
      match rowGet row "suitability_score" with
      | none => none
      | some s => if s = "" then none else s.toInt?
    key_responsibilities := pyOrStr (rowGet row "key_responsibilities") ""
    required_qualifications := pyOrStr (rowGet row "required_qualifications") ""
    preferred_certifications := pyOrStr (rowGet row "preferred_certifications") ""
    compensation_benefits := pyOrStr (rowGet row "compensation_benefits") ""
    work_schedule := pyOrStr (rowGet row "work_schedule") ""
    physical_requirements := pyOrStr (rowGet row "physical_requirements") ""
    how_to_apply := pyOrStr (rowGet row "how_to_apply") ""
    contact_emails := pyOrStr (rowGet row "contact_emails") ""
    contact_name :=
      pyOrStr
        (some (infer_contact_name hostname (rowGet row "job_summary")
          (rowGet row "contact_name") (rowGet row "contact_url")))
        "Unknown org"
    contact_city := pyOrStr (rowGet row "contact_city") ""
    contact_address := pyOrStr (rowGet row "contact_address") ""
    contact_url := pyOrStr (rowGet row "contact_url") ""
    source_url := pyOrStr (rowGet row "source_url") "" }

/-- An empty parsed detail page, used by concrete witnesses. -/
def emptyPage : DetailPage := ⟨none, ⟨none, none, none, none, none⟩, fun _ => none⟩

/-- A site that answers 403 to every request. -/
def alwaysForbidden : Option String → Response := fun _ => ⟨403, emptyPage⟩

/-- `None`-or-whitespace-only test on an optional string. -/
def isBlankOpt : Option String → Bool
  | none => true
  | some s => pyStrip s = ""

/-- The score the loop body records for one uncached job: `None` on a
request exception and the parsed score otherwise. -/
def scoreOutcome (jloads : String → Option JsonObj) (rep : ScoreReply) : Option Int :=
  match rep with
  | .failure => none
  | .reply text => parse_score_from_text jloads text

/-- A looping category site: every listing page repeats the same entry twice
and links back to itself as the next page. -/
def loopingListingNet : ListingNet := fun _ =>
  .ok ([⟨"https://protennisjobs.com/jobs/head-pro/", none, some "Head Pro", none, none⟩,
        ⟨"https://protennisjobs.com/jobs/head-pro/", none, some "Head Pro", none, none⟩],
    some CATEGORY_URL)

/-- A record whose optional fields are all null. -/
def allNullJob (title url : String) : JobListing :=
  { job_title := title
    location := ⟨none, none⟩
    posted_date := none
    job_summary := none
    position_overview := none
    suitability_score := none
    key_responsibilities := none
    required_qualifications := none
    preferred_certifications := none
    compensation_benefits := none
    work_schedule := none
    physical_requirements := none
    how_to_apply := none
    contact_emails := none
    contact_name := none
    contact_city := none
    contact_address := none
    contact_url := none
    distance_to_harrogate_tn_miles := none
    source_url := url }

/-! ## Claim theorems -/

/-- The section-classifier example input of the specification. -/
def c1Input : String :=
  "Responsibilities:\nTeach lessons.\nRun clinics.\nRequirements:\nUSPTA certified."

/-- C1 counterexample: on the spec's example input the classifier does NOT
map `required_qualifications` to `"USPTA certified."` — that key is absent
from the returned map. -/
theorem c1_counterexample :
    List.lookup SectionKey.required_qualifications
        (extract_sections_from_description c1Input) = none ∧
      List.lookup SectionKey.required_qualifications
          (extract_sections_from_description c1Input) ≠ some "USPTA certified." := by
  decide

/-- C1 amended: on the example input the classifier returns
`key_responsibilities = "Teach lessons. Run clinics."`, while
`required_qualifications` is absent: the line `"USPTA certified."` contains
the keyword `"uspta"` and has at most 6 words, so the stated heading rule
itself classifies it as a heading (for `preferred_certifications`), leaving
the `required_qualifications` section with no body — and the consumed
heading also leaves `preferred_certifications` absent. -/
theorem c1_amended :
    List.lookup SectionKey.key_responsibilities
        (extract_sections_from_description c1Input) = some "Teach lessons. Run clinics." ∧
      List.lookup SectionKey.required_qualifications
          (extract_sections_from_description c1Input) = none ∧
        List.lookup SectionKey.preferred_certifications
            (extract_sections_from_description c1Input) = none := by
  decide

/-- C8: `parse_location` on `"Springfield, IL"`, `"Nowhere"` and `None`. -/
theorem c8_parse_location_examples :
    parse_location (some "Springfield, IL") = ⟨some "Springfield", some "IL"⟩ ∧
      parse_location (some "Nowhere") = ⟨some "Nowhere", none⟩ ∧
        parse_location none = ⟨none, none⟩ := by
  decide

/-- C2: a detail-page fetch answered with HTTP 403 makes
`extract_job_details` return (not raise) the degraded record: title,
location (through `parse_location`), date and summary from the listing
page, the fetched URL as `source_url`, and every detail-only field null. -/
theorem c2_403_degraded (unescape : String → String) (net : Option String → Response)
    (job_url : String) (summary listing_title listing_location listing_date : Option String)
    (h : (net (some CATEGORY_URL)).status = 403) :
    extract_job_details unescape net job_url summary listing_title listing_location
        listing_date =
      .ok
        { job_title := pyOrStr listing_title "Unknown"
          location := parse_location listing_location
          posted_date := listing_date
          job_summary := summary
          position_overview := none
          suitability_score := none
          key_responsibilities := none
          required_qualifications := none
          preferred_certifications := none
          compensation_benefits := none
          work_schedule := none
          physical_requirements := none
          how_to_apply := none
          contact_emails := none
          contact_name := none
          contact_city := none
          contact_address := none
          contact_url := none
          distance_to_harrogate_tn_miles := none
          source_url := job_url } := by
  unfold extract_job_details fetch_html raise_for_status
  simp [h, degradedRecord]

/-- C2 witness: the spec's end-to-end example — listing title `"Head Pro"`,
location `"Austin, TX"`, date `"01 January 2025"`, a 403 detail page. -/
theorem c2_403_degraded_witness :
    (alwaysForbidden (some CATEGORY_URL)).status = 403 ∧
      extract_job_details id alwaysForbidden "https://protennisjobs.com/jobs/head-pro/"
          (some "A club is looking for a pro.") (some "Head Pro") (some "Austin, TX")
          (some "01 January 2025") =
        .ok
          { job_title := "Head Pro"
            location := ⟨some "Austin", some "TX"⟩
            posted_date := some "01 January 2025"
            job_summary := some "A club is looking for a pro."
            position_overview := none
            suitability_score := none
            key_responsibilities := none
            required_qualifications := none
            preferred_certifications := none
            compensation_benefits := none
            work_schedule := none
            physical_requirements := none
            how_to_apply := none
            contact_emails := none
            contact_name := none
            contact_city := none
            contact_address := none
            contact_url := none
            distance_to_harrogate_tn_miles := none
            source_url := "https://protennisjobs.com/jobs/head-pro/" } :=
  ⟨rfl, by
    rw [c2_403_degraded id alwaysForbidden _ _ _ _ _ rfl]
    exact congrArg Except.ok (by decide)⟩

/-- C10: with both city and state missing or whitespace-only, the geocoder
returns `None`, issues no request, and leaves the cache untouched. -/
theorem c10_blank_location_is_noop (net : String → GeocodeReply)
    (city state : Option String) (cache : GeoCache)
    (hc : isBlankOpt city = true) (hs : isBlankOpt state = true) :
    geocode_city_state net city state cache = ⟨none, cache, 0⟩ := by
  have hkey : location_cache_key city state = none := by
    unfold location_cache_key
    cases city with
    | none =>
      cases state with
      | none => simp
      | some s => simp [isBlankOpt] at hs; simp [hs]
    | some c =>
      simp [isBlankOpt] at hc
      cases state with
      | none => simp [hc]
      | some s => simp [isBlankOpt] at hs; simp [hc, hs]
  simp [geocode_city_state, hkey]

/-- C10 witness: whitespace city, missing state, a non-empty cache. -/
theorem c10_blank_location_is_noop_witness :
    isBlankOpt (some "   ") = true ∧ isBlankOpt (none : Option String) = true ∧
      geocode_city_state (fun _ => .empty) (some "   ") none [("austin, tx", none)] =
        ⟨none, [("austin, tx", none)], 0⟩ :=
  ⟨by decide, rfl,
    c10_blank_location_is_noop (fun _ => .empty) (some "   ") none [("austin, tx", none)]
      (by decide) rfl⟩

/-- C3 counterexample: on a cache miss whose geocoding request fails with an
exception, nothing is stored in the cache — the failure key stays absent,
so it will be re-queried on a later pass. -/
theorem c3_counterexample :
    location_cache_key (some "Springfield") (some "IL") = some "springfield, il" ∧
      (geocode_city_state (fun _ => .failure) (some "Springfield") (some "IL") []).cache =
        [] ∧
        List.lookup "springfield, il"
            (geocode_city_state (fun _ => .failure) (some "Springfield") (some "IL")
                []).cache =
          none ∧
          (geocode_city_state (fun _ => .failure) (some "Springfield") (some "IL")
                []).coords =
            none := by
  refine ⟨by decide, rfl, rfl, rfl⟩

/-- C3 amended: on a cache miss, an explicit null is cached only when the
service returns an empty result; a request exception returns `None` with
the cache unchanged (so only empty results, not exceptions, are negatively
cached). Neither case raises to the caller. -/
theorem c3_null_cached_only_on_empty (net : String → GeocodeReply)
    (city state : Option String) (cache : GeoCache) (key : String)
    (hkey : location_cache_key city state = some key)
    (hmiss : List.lookup key cache = none) :
    (net (geoQuery city state) = .empty →
        geocode_city_state net city state cache = ⟨none, dictSet cache key none, 1⟩ ∧
          List.lookup key (dictSet cache key none) = some none) ∧
      (net (geoQuery city state) = .failure →
        geocode_city_state net city state cache = ⟨none, cache, 1⟩) := by
  constructor
  · intro hnet
    constructor
    · simp [geocode_city_state, hkey, hmiss, hnet]
    · simp [dictSet, List.lookup]
  · intro hnet
    simp [geocode_city_state, hkey, hmiss, hnet]

/-- C3 witness: an empty geocoder reply on a fresh key is cached as null. -/
theorem c3_null_cached_only_on_empty_witness :
    location_cache_key (some "Austin") (some "TX") = some "austin, tx" ∧
      List.lookup "austin, tx" ([] : GeoCache) = none ∧
        geocode_city_state (fun _ => .empty) (some "Austin") (some "TX") [] =
            ⟨none, [("austin, tx", none)], 1⟩ ∧
          List.lookup "austin, tx" [("austin, tx", (none : Option GeoCoords))] = some none :=
  ⟨by decide, rfl,
    ((c3_null_cached_only_on_empty (fun _ => .empty) (some "Austin") (some "TX") []
          "austin, tx" (by decide) rfl).1 rfl).1,
    ((c3_null_cached_only_on_empty (fun _ => .empty) (some "Austin") (some "TX") []
          "austin, tx" (by decide) rfl).1 rfl).2⟩

/-- C5 counterexample: a detail-page fetch (referer already the category
URL) whose first attempt returns 403 issues NO further request — the
request list is the single original request, not two. -/
theorem c5_counterexample :
    (alwaysForbidden (some CATEGORY_URL)).status = 403 ∧
      (fetch_html alwaysForbidden (some CATEGORY_URL)).2 = [some CATEGORY_URL] ∧
        (fetch_html alwaysForbidden (some CATEGORY_URL)).2.length ≠ 2 := by
  refine ⟨rfl, by decide, by decide⟩

/-- C5 amended: a first-attempt 403 is retried once with the category-URL
referer exactly when the original request's referer was not already the
category URL; detail-page fetches send that referer, so their 403s are not
retried. -/
theorem c5_403_retry_only_without_category_referer (net : Option String → Response)
    (referer : Option String) (h : (net referer).status = 403) :
    (fetch_html net referer).2 =
      if referer = some CATEGORY_URL then [referer] else [referer, some CATEGORY_URL] := by
  unfold fetch_html
  by_cases hr : referer = some CATEGORY_URL <;> simp [h, hr]

/-- On a cache miss the loop body records `scoreOutcome` on the job and in
the cache. -/
theorem score_one_miss (jloads : String → Option JsonObj) (net : String → ScoreReply)
    (cache : ScoreCache) (job : JobListing)
    (hmiss : List.lookup job.source_url cache = none) :
    score_one jloads net cache job =
      ({ job with suitability_score := scoreOutcome jloads (net (build_fit_prompt job)) },
        dictSet cache job.source_url (scoreOutcome jloads (net (build_fit_prompt job)))) := by
  unfold score_one
  rw [hmiss]
  cases hn : net (build_fit_prompt job) <;> simp [fetch_openai_score, scoreOutcome]

/-- The scoring loop distributes over list append. -/
theorem score_core_append (jloads : String → Option JsonObj) (net : String → ScoreReply)
    (l1 l2 : List JobListing) (cache : ScoreCache) :
    score_jobs_core jloads net (l1 ++ l2) cache =
      ((score_jobs_core jloads net l1 cache).1 ++
          (score_jobs_core jloads net l2 (score_jobs_core jloads net l1 cache).2).1,
        (score_jobs_core jloads net l2 (score_jobs_core jloads net l1 cache).2).2) := by
  induction l1 generalizing cache with
  | nil => simp [score_jobs_core]
  | cons job rest ih => simp [score_jobs_core, ih]

/-- The scoring loop returns one job per input job. -/
theorem score_core_length (jloads : String → Option JsonObj) (net : String → ScoreReply)
    (l : List JobListing) (cache : ScoreCache) :
    (score_jobs_core jloads net l cache).1.length = l.length := by
  induction l generalizing cache with
  | nil => rfl
  | cons job rest ih => simp [score_jobs_core, ih]

/-- A key already present in the score cache survives the rest of the
scoring loop with its value intact. -/
theorem score_core_preserves (jloads : String → Option JsonObj) (net : String → ScoreReply)
    (l : List JobListing) (cache : ScoreCache) (url : String) (v : Option Int)
    (h : List.lookup url cache = some v) :
    List.lookup url (score_jobs_core jloads net l cache).2 = some v := by
  induction l generalizing cache with
  | nil => exact h
  | cons job rest ih =>
    simp only [score_jobs_core]
    cases hl : List.lookup job.source_url cache with
    | some cached => simp [score_one, hl]; exact ih cache h
    | none =>
      rw [score_one_miss jloads net cache job hl]
      apply ih
      have hne : url ≠ job.source_url := by
        intro heq
        rw [heq, hl] at h
        exact Option.noConfusion h
      have hb : (url == job.source_url) = false := beq_eq_false_iff_ne.mpr hne
      simp only [dictSet, List.lookup, hb]
      exact h

/-- C4: a job whose URL is not yet cached when the loop reaches it, and
whose scoring step fails (request exception, or a reply from which no
usable numeric score parses), ends with `suitability_score = None`, that
null stored in the cache under its URL, and `score_jobs_with_ai` returning
normally. -/
theorem c4_score_failure_cached_null (api_key : String)
    (jloads : String → Option JsonObj) (net : String → ScoreReply)
    (pre post : List JobListing) (job : JobListing) (cache : ScoreCache)
    (hkey : pyStrip api_key ≠ "")
    (hmiss : List.lookup job.source_url (score_jobs_core jloads net pre cache).2 = none)
    (hfail : scoreOutcome jloads (net (build_fit_prompt job)) = none) :
    ∃ pre' post' cache',
      score_jobs_with_ai api_key jloads net (pre ++ job :: post) cache =
          (pre' ++ { job with suitability_score := none } :: post', cache') ∧
        pre'.length = pre.length ∧
          List.lookup job.source_url cache' = some none := by
  have hcore :
      score_jobs_with_ai api_key jloads net (pre ++ job :: post) cache =
        score_jobs_core jloads net (pre ++ job :: post) cache := by
    simp [score_jobs_with_ai, hkey]
  set c1 := (score_jobs_core jloads net pre cache).2 with hc1
  refine ⟨(score_jobs_core jloads net pre cache).1,
    (score_jobs_core jloads net post
      (dictSet c1 job.source_url none)).1,
    (score_jobs_core jloads net post (dictSet c1 job.source_url none)).2, ?_, ?_, ?_⟩
  · rw [hcore, score_core_append]
    have hone := score_one_miss jloads net c1 job hmiss
    rw [hfail] at hone
    simp [score_jobs_core, hone]
  · exact score_core_length jloads net pre cache
  · apply score_core_preserves
    simp [dictSet, List.lookup]

/-- C4 witness: one uncached job, a network that always fails. -/
theorem c4_score_failure_cached_null_witness :
    pyStrip "key" ≠ "" ∧
      List.lookup "https://protennisjobs.com/jobs/x/"
          (score_jobs_core (fun _ => none) (fun _ => .failure) [] []).2 = none ∧
        scoreOutcome (fun _ => none) ((fun _ => ScoreReply.failure) "p") = none ∧
          ∃ pre' post' cache',
            score_jobs_with_ai "key" (fun _ => none) (fun _ => .failure)
                ([] ++
                  { job_title := "Head Pro", location := ⟨none, none⟩, posted_date := none,
                    job_summary := none, position_overview := none, suitability_score := none,
                    key_responsibilities := none, required_qualifications := none,
                    preferred_certifications := none, compensation_benefits := none,
                    work_schedule := none, physical_requirements := none, how_to_apply := none,
                    contact_emails := none, contact_name := none, contact_city := none,
                    contact_address := none, contact_url := none,
                    distance_to_harrogate_tn_miles := none,
                    source_url := "https://protennisjobs.com/jobs/x/" } :: []) [] =
                (pre' ++
                  { job_title := "Head Pro", location := ⟨none, none⟩, posted_date := none,
                    job_summary := none, position_overview := none,
                    suitability_score := none,
                    key_responsibilities := none, required_qualifications := none,
                    preferred_certifications := none, compensation_benefits := none,
                    work_schedule := none, physical_requirements := none, how_to_apply := none,
                    contact_emails := none, contact_name := none, contact_city := none,
                    contact_address := none, contact_url := none,
                    distance_to_harrogate_tn_miles := none,
                    source_url := "https://protennisjobs.com/jobs/x/" } :: post', cache') ∧
              pre'.length = 0 ∧
                List.lookup "https://protennisjobs.com/jobs/x/" cache' = some none :=
  ⟨by decide, rfl, rfl, by
    have := c4_score_failure_cached_null "key" (fun _ => none) (fun _ => .failure) [] []
      { job_title := "Head Pro", location := ⟨none, none⟩, posted_date := none,
        job_summary := none, position_overview := none, suitability_score := none,
        key_responsibilities := none, required_qualifications := none,
        preferred_certifications := none, compensation_benefits := none,
        work_schedule := none, physical_requirements := none, how_to_apply := none,
        contact_emails := none, contact_name := none, contact_city := none,
        contact_address := none, contact_url := none,
        distance_to_harrogate_tn_miles := none,
        source_url := "https://protennisjobs.com/jobs/x/" } [] (by decide) rfl rfl
    simpa using this⟩

/-- Every branch of `extract_job_details` stamps the fetched URL as the
record's `source_url`. -/
theorem extract_job_details_source_url (unescape : String → String)
    (net : Option String → Response) (url : String)
    (s t l d : Option String) (job : JobListing)
    (h : extract_job_details unescape net url s t l d = .ok job) :
    job.source_url = url := by
  unfold extract_job_details at h
  split at h
  · split at h
    · simp only [Except.ok.injEq] at h
      rw [← h]
      rfl
    · exact absurd h (by simp)
  · simp only [Except.ok.injEq] at h
    rw [← h]

/-- The inner listing loop keeps emitted `source_url`s distinct and inside
the seen set. -/
theorem processListings_nodup (unescape : String → String) (dn : DetailNet) :
    ∀ (entries : List ListingEntry) (seen : List String) (acc : List JobListing)
      (seen' : List String) (acc' : List JobListing),
      processListings unescape dn entries seen acc = .ok (seen', acc') →
      (acc.map (·.source_url)).Nodup → (∀ j ∈ acc, j.source_url ∈ seen) →
      (acc'.map (·.source_url)).Nodup ∧ ∀ j ∈ acc', j.source_url ∈ seen' := by
  intro entries
  induction entries with
  | nil =>
    intro seen acc seen' acc' h hnd hmem
    simp only [processListings, Except.ok.injEq, Prod.mk.injEq] at h
    obtain ⟨rfl, rfl⟩ := h
    exact ⟨hnd, hmem⟩
  | cons e rest ih =>
    intro seen acc seen' acc' h hnd hmem
    simp only [processListings] at h
    by_cases hseen : e.url ∈ seen
    · rw [if_pos hseen] at h
      exact ih seen acc seen' acc' h hnd hmem
    · rw [if_neg hseen] at h
      cases hx : extract_job_details unescape (dn e.url) e.url e.summary e.listing_title
          e.listing_location e.listing_date with
      | error code => rw [hx] at h; exact absurd h (by simp)
      | ok job =>
        rw [hx] at h
        have hsrc := extract_job_details_source_url unescape (dn e.url) e.url e.summary
          e.listing_title e.listing_location e.listing_date job hx
        apply ih _ _ _ _ h
        · rw [List.map_append]
          rw [List.nodup_append]
          refine ⟨hnd, by simp, ?_⟩
          intro x hxmem
          simp only [List.map_cons, List.map_nil, List.mem_singleton]
          intro hxeq
          rw [hxeq] at hxmem
          rw [hsrc] at hxmem
          obtain ⟨j, hj, hjeq⟩ := List.mem_map.mp hxmem
          exact hseen (hjeq ▸ hmem j hj)
        · intro j hj
          rcases List.mem_append.mp hj with hj | hj
          · exact List.mem_cons_of_mem _ (hmem j hj)
          · rw [List.mem_singleton.mp hj, hsrc]
            exact List.mem_cons_self _ _

/-- The pagination loop keeps emitted `source_url`s distinct. -/
theorem scrapeGo_nodup (unescape : String → String) (ln : ListingNet) (dn : DetailNet) :
    ∀ (fuel : Nat) (next : Option String) (seen : List String) (acc jobs : List JobListing),
      scrapeGo unescape ln dn fuel next seen acc = .ok jobs →
      (acc.map (·.source_url)).Nodup → (∀ j ∈ acc, j.source_url ∈ seen) →
      (jobs.map (·.source_url)).Nodup := by
  intro fuel
  induction fuel with
  | zero =>
    intro next seen acc jobs h hnd hmem
    simp only [scrapeGo, Except.ok.injEq] at h
    exact h ▸ hnd
  | succ n ih =>
    intro next seen acc jobs h hnd hmem
    cases next with
    | none =>
      simp only [scrapeGo, Except.ok.injEq] at h
      exact h ▸ hnd
    | some url =>
      simp only [scrapeGo] at h
      split at h
      · exact absurd h (by simp)
      · rename_i entries next heq
        split at h
        · exact absurd h (by simp)
        · rename_i seen' acc' hp
          obtain ⟨hnd', hmem'⟩ :=
            processListings_nodup unescape dn entries seen acc seen' acc' hp hnd hmem
          exact ih next seen' acc' jobs h hnd' hmem'

/-- C6: whenever a crawl returns, the `source_url`s of the returned records
are pairwise distinct, whatever the pagination structure (including looping
next links and repeated detail URLs). -/
theorem c6_source_urls_nodup (fuel : Nat) (unescape : String → String) (ln : ListingNet)
    (dn : DetailNet) (jobs : List JobListing)
    (h : scrape_all_listings fuel unescape ln dn = .ok jobs) :
    (jobs.map (·.source_url)).Nodup :=
  scrapeGo_nodup unescape ln dn fuel (some CATEGORY_URL) [] [] jobs h (by simp)
    (by simp)

/-- C6 witness: a crawl over the looping site with 403 detail pages emits
the repeated URL exactly once. -/
theorem c6_source_urls_nodup_witness :
    scrape_all_listings 2 id loopingListingNet (fun _ => alwaysForbidden) =
        .ok
          [{ job_title := "Head Pro", location := ⟨none, none⟩, posted_date := none,
             job_summary := none, position_overview := none, suitability_score := none,
             key_responsibilities := none, required_qualifications := none,
             preferred_certifications := none, compensation_benefits := none,
             work_schedule := none, physical_requirements := none, how_to_apply := none,
             contact_emails := none, contact_name := none, contact_city := none,
             contact_address := none, contact_url := none,
             distance_to_harrogate_tn_miles := none,
             source_url := "https://protennisjobs.com/jobs/head-pro/" }] ∧
      (([({ job_title := "Head Pro", location := ⟨none, none⟩, posted_date := none,
            job_summary := none, position_overview := none, suitability_score := none,
            key_responsibilities := none, required_qualifications := none,
            preferred_certifications := none, compensation_benefits := none,
            work_schedule := none, physical_requirements := none, how_to_apply := none,
            contact_emails := none, contact_name := none, contact_city := none,
            contact_address := none, contact_url := none,
            distance_to_harrogate_tn_miles := none,
            source_url := "https://protennisjobs.com/jobs/head-pro/" } : JobListing)]).map
          (·.source_url)).Nodup := by
  constructor
  · rfl
  · exact c6_source_urls_nodup 2 id loopingListingNet (fun _ => alwaysForbidden) _ rfl

/-- C5 witness: a referer-less fetch (as used on listing pages) answered 403
is retried once with the category referer. -/
theorem c5_403_retry_only_without_category_referer_witness :
    (alwaysForbidden none).status = 403 ∧
      (fetch_html alwaysForbidden none).2 = [none, some CATEGORY_URL] :=
  ⟨rfl, by
    rw [c5_403_retry_only_without_category_referer alwaysForbidden none rfl]
    decide⟩

/-- C7 counterexample: round-tripping an all-null record through the CSV
writer and the serving loader yields `"Unknown org"` — not the empty
string — for `contact_name` (the loader's display fallback). -/
theorem c7_counterexample :
    (load_job_row (fun _ => none) (fun _ => none)
          (write_csv_row (allNullJob "Head Pro" "https://protennisjobs.com/jobs/x/"))).contact_name =
        "Unknown org" ∧
      ("Unknown org" : String) ≠ "" := by
  exact ⟨rfl, by decide⟩

/-- C7 amended: round-tripping an all-null record yields the empty string —
never the literal string `"None"` — for every optional field except
`contact_name`, which the loader replaces with the display default
`"Unknown org"`; the numeric optionals (`suitability_score`, distance)
come back as null. -/
theorem c7_roundtrip_empty_strings (hostname : String → Option String)
    (pfloat : String → Option Rat) (title url : String) :
    (load_job_row hostname pfloat (write_csv_row (allNullJob title url))).posted_date = "" ∧
    (load_job_row hostname pfloat (write_csv_row (allNullJob title url))).job_summary = "" ∧
    (load_job_row hostname pfloat
        (write_csv_row (allNullJob title url))).position_overview = "" ∧
    (load_job_row hostname pfloat
        (write_csv_row (allNullJob title url))).key_responsibilities = "" ∧
    (load_job_row hostname pfloat
        (write_csv_row (allNullJob title url))).required_qualifications = "" ∧
    (load_job_row hostname pfloat
        (write_csv_row (allNullJob title url))).preferred_certifications = "" ∧
    (load_job_row hostname pfloat
        (write_csv_row (allNullJob title url))).compensation_benefits = "" ∧
    (load_job_row hostname pfloat (write_csv_row (allNullJob title url))).work_schedule = "" ∧
    (load_job_row hostname pfloat
        (write_csv_row (allNullJob title url))).physical_requirements = "" ∧
    (load_job_row hostname pfloat (write_csv_row (allNullJob title url))).how_to_apply = "" ∧
    (load_job_row hostname pfloat (write_csv_row (allNullJob title url))).contact_emails = "" ∧
    (load_job_row hostname pfloat (write_csv_row (allNullJob title url))).contact_city = "" ∧
    (load_job_row hostname pfloat
        (write_csv_row (allNullJob title url))).contact_address = "" ∧
    (load_job_row hostname pfloat (write_csv_row (allNullJob title url))).contact_url = "" ∧
    (load_job_row hostname pfloat
        (write_csv_row (allNullJob title url))).contact_name = "Unknown org" ∧
    (load_job_row hostname pfloat
        (write_csv_row (allNullJob title url))).suitability_score = none ∧
    (load_job_row hostname pfloat
        (write_csv_row (allNullJob title url))).distance_to_harrogate_tn_miles = none :=
  ⟨rfl, rfl, rfl, rfl, rfl, rfl, rfl, rfl, rfl, rfl, rfl, rfl, rfl, rfl, rfl, rfl, rfl⟩

/-- C7 amended-claim witness at a concrete record. -/
theorem c7_roundtrip_empty_strings_witness :
    (load_job_row (fun _ => none) (fun _ => none)
          (write_csv_row (allNullJob "Tennis Pro" "https://protennisjobs.com/jobs/y/"))).posted_date =
        "" ∧
      (load_job_row (fun _ => none) (fun _ => none)
            (write_csv_row
              (allNullJob "Tennis Pro" "https://protennisjobs.com/jobs/y/"))).contact_name =
        "Unknown org" :=
  ⟨(c7_roundtrip_empty_strings (fun _ => none) (fun _ => none) "Tennis Pro"
      "https://protennisjobs.com/jobs/y/").1,
    (c7_roundtrip_empty_strings (fun _ => none) (fun _ => none) "Tennis Pro"
      "https://protennisjobs.com/jobs/y/").2.2.2.2.2.2.2.2.2.2.2.2.2.2.1⟩

/-- `dropWhile` never lengthens a list. -/
theorem length_dropWhile_le (p : Char → Bool) (l : List Char) :
    (l.dropWhile p).length ≤ l.length := by
  induction l with
  | nil => simp
  | cons c t ih =>
    by_cases h : p c
    · simp only [List.dropWhile_cons, h, if_true, List.length_cons]
      omega
    · simp [List.dropWhile_cons, h]

/-- `rstrip` never lengthens a string. -/
theorem pyLen_pyRstrip_le (s : String) : pyLen (pyRstrip s) ≤ pyLen s := by
  simpa [pyLen, pyRstrip] using length_dropWhile_le isWs s.data.reverse

/-- A slice `s[:n]` has at most `n` characters. -/
theorem pyLen_strTake_le (s : String) (n : Nat) : pyLen (strTake s n) ≤ n := by
  simp [pyLen, strTake]

/-- String append concatenates the character data. -/
theorem string_data_append (s t : String) : (s ++ t).data = s.data ++ t.data := rfl

/-- Length of appended strings. -/
theorem pyLen_append (s t : String) : pyLen (s ++ t) = pyLen s + pyLen t := by
  show (s.data ++ t.data).length = _
  simp [pyLen]

/-- A prefix ending in a non-whitespace character survives `rstrip`. -/
theorem prefix_pyRstrip {p : List Char} {c : Char} (s : String)
    (h : (p ++ [c]) <+: s.data) (hc : isWs c = false) :
    (p ++ [c]) <+: (pyRstrip s).data := by
  obtain ⟨tl, htl⟩ := h
  show (p ++ [c]) <+: ((s.data.reverse.dropWhile isWs).reverse)
  rw [← htl, List.reverse_append, List.reverse_append, List.reverse_singleton,
    List.singleton_append, List.dropWhile_append]
  by_cases he : (tl.reverse.dropWhile isWs).isEmpty
  · rw [if_pos he, List.dropWhile_cons_of_neg (by simp [hc]), List.reverse_cons,
      List.reverse_reverse]
  · rw [if_neg he, List.reverse_append, List.reverse_cons, List.reverse_reverse]
    exact List.prefix_append _ _

/-- `pyJoin` on a two-or-more-element list. -/
theorem pyJoin_cons_cons (sep a b : String) (l : List String) :
    pyJoin sep (a :: b :: l) = a ++ sep ++ pyJoin sep (b :: l) := rfl

/-- The first joined part is a prefix of the join. -/
theorem head_prefix_pyJoin (sep x : String) (l : List String) :
    x.data <+: (pyJoin sep (x :: l)).data := by
  cases l with
  | nil => exact List.prefix_refl _
  | cons b t =>
    rw [pyJoin_cons_cons, string_data_append, string_data_append, List.append_assoc]
    exact List.prefix_append _ _

/-- The assembled prompt always starts with the criteria line and the job
title line. -/
theorem fit_prompt_parts_shape (job : JobListing) :
    ∃ rest, fit_prompt_parts job =
      ("Criteria: " ++ WINTER_FIT_CRITERIA) :: ("Job Title: " ++ job.job_title) :: rest :=
  ⟨_, rfl⟩

set_option maxRecDepth 8192 in
/-- C9: the prompt `build_fit_prompt` returns is at most
`OPENAI_MAX_INPUT_CHARS + 3` characters, always starts with the fixed
criteria line, is returned unchanged when the assembled prompt fits the
budget, and otherwise is the budget-sized slice, right-stripped, with
`"..."` appended. -/
theorem c9_prompt_bounded (job : JobListing) :
    pyLen (build_fit_prompt job) ≤ OPENAI_MAX_INPUT_CHARS + 3 ∧
      ("Criteria: " ++ WINTER_FIT_CRITERIA).data <+: (build_fit_prompt job).data ∧
        (pyLen (pyJoin "\n" (fit_prompt_parts job)) ≤ OPENAI_MAX_INPUT_CHARS →
          build_fit_prompt job = pyJoin "\n" (fit_prompt_parts job)) ∧
          (OPENAI_MAX_INPUT_CHARS < pyLen (pyJoin "\n" (fit_prompt_parts job)) →
            build_fit_prompt job =
              pyRstrip (strTake (pyJoin "\n" (fit_prompt_parts job)) OPENAI_MAX_INPUT_CHARS) ++
                "...") := by
  obtain ⟨rest, hshape⟩ := fit_prompt_parts_shape job
  have hb :
      build_fit_prompt job =
        if pyLen (pyJoin "\n" (fit_prompt_parts job)) > OPENAI_MAX_INPUT_CHARS then
          pyRstrip (strTake (pyJoin "\n" (fit_prompt_parts job)) OPENAI_MAX_INPUT_CHARS) ++
            "..."
        else pyJoin "\n" (fit_prompt_parts job) := rfl
  have hjt :
      ("Job Title: " ++ job.job_title).data <+:
        (pyJoin "\n" (("Job Title: " ++ job.job_title) :: rest)).data :=
    head_prefix_pyJoin "\n" _ rest
  obtain ⟨t2, ht2⟩ := hjt
  have hdata :
      (pyJoin "\n" (fit_prompt_parts job)).data =
        (("Criteria: " ++ WINTER_FIT_CRITERIA).data ++ ['\n', 'J']) ++
          ("ob Title: ".data ++ job.job_title.data ++ t2) := by
    rw [hshape, pyJoin_cons_cons, string_data_append, string_data_append, ← ht2,
      string_data_append]
    simp
  have hpre :
      (("Criteria: " ++ WINTER_FIT_CRITERIA).data ++ ['\n', 'J']) <+:
        (pyJoin "\n" (fit_prompt_parts job)).data :=
    ⟨_, hdata.symm⟩
  have hcritpre :
      ("Criteria: " ++ WINTER_FIT_CRITERIA).data <+:
        (("Criteria: " ++ WINTER_FIT_CRITERIA).data ++ ['\n', 'J']) :=
    List.prefix_append _ _
  by_cases hlen :
      pyLen (pyJoin "\n" (fit_prompt_parts job)) > OPENAI_MAX_INPUT_CHARS
  · have hres :
        build_fit_prompt job =
          pyRstrip (strTake (pyJoin "\n" (fit_prompt_parts job)) OPENAI_MAX_INPUT_CHARS) ++
            "..." := by
      rw [hb, if_pos hlen]
    have htrunc :
        (("Criteria: " ++ WINTER_FIT_CRITERIA).data ++ ['\n', 'J']) <+:
          (strTake (pyJoin "\n" (fit_prompt_parts job)) OPENAI_MAX_INPUT_CHARS).data := by
      show _ <+: (pyJoin "\n" (fit_prompt_parts job)).data.take OPENAI_MAX_INPUT_CHARS
      exact List.prefix_take_iff.mpr ⟨hpre, by decide⟩
    have hrstrip :
        (("Criteria: " ++ WINTER_FIT_CRITERIA).data ++ ['\n', 'J']) <+:
          (pyRstrip
            (strTake (pyJoin "\n" (fit_prompt_parts job)) OPENAI_MAX_INPUT_CHARS)).data := by
      have h' := prefix_pyRstrip
        (p := ("Criteria: " ++ WINTER_FIT_CRITERIA).data ++ ['\n']) (c := 'J')
        (strTake (pyJoin "\n" (fit_prompt_parts job)) OPENAI_MAX_INPUT_CHARS)
        (by simpa using htrunc) (by decide)
      simpa using h'
    refine ⟨?_, ?_, ?_, fun _ => hres⟩
    · rw [hres, pyLen_append]
      have h1 := pyLen_pyRstrip_le
        (strTake (pyJoin "\n" (fit_prompt_parts job)) OPENAI_MAX_INPUT_CHARS)
      have h2 := pyLen_strTake_le (pyJoin "\n" (fit_prompt_parts job)) OPENAI_MAX_INPUT_CHARS
      have h3 : pyLen "..." = 3 := rfl
      omega
    · rw [hres, string_data_append]
      exact (hcritpre.trans hrstrip).trans (List.prefix_append _ _)
    · intro hle
      omega
  · have hres : build_fit_prompt job = pyJoin "\n" (fit_prompt_parts job) := by
      rw [hb, if_neg hlen]
    refine ⟨?_, ?_, fun _ => hres, fun hgt => absurd hgt hlen⟩
    · rw [hres]
      omega
    · rw [hres]
      exact hcritpre.trans hpre

/-- C9 witness: a small concrete job stays under the budget and keeps the
criteria-line prefix. -/
theorem c9_prompt_bounded_witness :
    pyLen
        (build_fit_prompt (allNullJob "Head Pro" "https://protennisjobs.com/jobs/w/")) ≤
      OPENAI_MAX_INPUT_CHARS + 3 ∧
      ("Criteria: " ++ WINTER_FIT_CRITERIA).data <+:
        (build_fit_prompt (allNullJob "Head Pro" "https://protennisjobs.com/jobs/w/")).data :=
  ⟨(c9_prompt_bounded (allNullJob "Head Pro" "https://protennisjobs.com/jobs/w/")).1,
    (c9_prompt_bounded (allNullJob "Head Pro" "https://protennisjobs.com/jobs/w/")).2.1⟩

end PTJ
